import Mathlib

/-!
Verification of the fetch strategy layer of `fetch_problem` (two Python
scripts: `src/fetch_spglobal.py`, a requests/HTTP-1.1 cookie-session
client, and `src/fetch_spglobal_httpx.py`, an httpx/HTTP-2 client).
The definitions below are a shallow embedding of those scripts: pure
values (header dictionaries, URLs, query parameters) become Lean data,
the JSON bodies become an inductive `Json` type, and the effectful
request flows become functions over explicit oracles describing what
the network returned, yielding `Except`-style results.
-/

namespace FetchProblem

/-- JSON values as decoded by Python's `response.json()`:
null, booleans, numbers (modelled as rationals), strings, arrays,
objects (ordered association lists; later duplicate keys shadow
earlier ones, as in Python dict construction). -/
inductive Json where
  | null
  | bool (b : Bool)
  | num (q : Rat)
  | str (s : String)
  | arr (elems : List Json)
  | obj (fields : List (String × Json))

/-- Python truthiness of a decoded JSON value, as tested by
`if data.get("status"):` in `main` of both scripts: `None`, `False`,
`0`, `""`, `[]` and the empty dict are falsy, everything else truthy. -/
def Json.truthy : Json → Bool
  | .null => false
  | .bool b => b
  | .num q => q != 0
  | .str s => s != ""
  | .arr xs => !xs.isEmpty
  | .obj fs => !fs.isEmpty

/-- Key lookup in a decoded JSON object: the last binding of a key wins,
matching Python dict semantics for duplicate keys in a JSON text. -/
def lookupField (fs : List (String × Json)) (k : String) : Option Json :=
  fs.reverse.lookup k

/-- Exceptions the extraction code in `main` can raise: `AttributeError`
(`.get` on a non-dict), `TypeError` (subscripting a non-container or a
list with a string key), `KeyError` (missing dict key, or an integer
index applied to a dict), `IndexError` (list index out of range). -/
inductive ExtractError where
  | attributeError
  | typeError
  | keyError (k : String)
  | indexError
deriving DecidableEq

/-- `data.get(k)` in Python: `None` (here `none`) when the key is
absent, raises `AttributeError` when `data` is not a dict. -/
def Json.getOpt (j : Json) (k : String) : Except ExtractError (Option Json) :=
  match j with
  | .obj fs => .ok (lookupField fs k)
  | _ => .error .attributeError

/-- `data[k]` in Python for a string key: the value when present,
`KeyError` when absent, `TypeError` when `data` is not a dict. -/
def Json.getItem (j : Json) (k : String) : Except ExtractError Json :=
  match j with
  | .obj fs =>
    match lookupField fs k with
    | some v => .ok v
    | none => .error (.keyError k)
  | _ => .error .typeError

/-- `data[i]` in Python for an integer index: the element when in
range, `IndexError` when out of range on a list, `KeyError` when
applied to a dict (an int is never a key of a decoded JSON object),
`TypeError` otherwise. -/
def Json.getIdx (j : Json) (i : Nat) : Except ExtractError Json :=
  match j with
  | .arr xs =>
    match xs.get? i with
    | some v => .ok v
    | none => .error .indexError
  | .obj _ => .error (.keyError (toString i))
  | _ => .error .typeError

/-- The canonical output record of the system, as read off the first
element of the performance array by `main` in both scripts
(`fetch_spglobal.py` lines 78-84, `fetch_spglobal_httpx.py` lines
68-74). Field values are kept as raw JSON values, exactly the objects
the code extracts. -/
structure IndexPerformanceRecord where
  indexName : Json
  indexValue : Json
  dailyReturnPct : Json
  ytdReturnPct : Json
  oneYearReturnPct : Json

/-- The five sequential field reads of `main` on the first
performance-array element: `perf["indexName"]`, `perf["indexValue"]`,
`perf["dailyReturn"]`, `perf["yearToDateReturn"]`,
`perf["oneYearReturn"]`; the first missing key raises its `KeyError`
before the later reads happen. -/
def extractFields (perf : Json) : Except ExtractError IndexPerformanceRecord :=
  match perf.getItem "indexName" with
  | .error e => .error e
  | .ok n =>
    match perf.getItem "indexValue" with
    | .error e => .error e
    | .ok v =>
      match perf.getItem "dailyReturn" with
      | .error e => .error e
      | .ok d =>
        match perf.getItem "yearToDateReturn" with
        | .error e => .error e
        | .ok y =>
          match perf.getItem "oneYearReturn" with
          | .error e => .error e
          | .ok o => .ok ⟨n, v, d, y, o⟩

/-- The record-extraction logic of `main`, identical in both scripts:
`if data.get("status"):` guards the block
`perf = data["performanceComparisonHolder"]["indexPerformanceForComparison"][0]`
followed by the five field reads of `extractFields`. A falsy or absent
`status` skips the block and the script ends without a record; any
missing key or empty array inside the block raises the corresponding
Python exception. -/
def mainExtract (data : Json) : Except ExtractError (Option IndexPerformanceRecord) :=
  match data.getOpt "status" with
  | .error e => .error e
  | .ok st =>
    if (st.map Json.truthy).getD false then
      match data.getItem "performanceComparisonHolder" with
      | .error e => .error e
      | .ok holder =>
        match holder.getItem "indexPerformanceForComparison" with
        | .error e => .error e
        | .ok arr =>
          match arr.getIdx 0 with
          | .error e => .error e
          | .ok perf =>
            match extractFields perf with
            | .error e => .error e
            | .ok rec => .ok (some rec)
    else
      .ok none

/-- A performance-array element carrying the five fields `main` reads. -/
def perfObj (name value daily ytd oneY : Json) : Json :=
  .obj [("indexName", name), ("indexValue", value), ("dailyReturn", daily),
        ("yearToDateReturn", ytd), ("oneYearReturn", oneY)]

/-- A response body of the documented API shape
`{status, serviceMessages, performanceComparisonHolder:
{indexPerformanceForComparison: [...]}}`. -/
def comparisonResponse (status : Json) (messages : List Json)
    (perfItems : List Json) : Json :=
  .obj [("status", status), ("serviceMessages", .arr messages),
        ("performanceComparisonHolder",
          .obj [("indexPerformanceForComparison", .arr perfItems)])]

/-- The browser-like header dictionary built in `create_browser_session`
of `fetch_spglobal.py` (lines 12-26), in source order. -/
def HEADERS_spg : List (String × String) :=
  [("User-Agent", "Mozilla/5.0 (Macintosh; Intel Mac OS X 10.15; rv:147.0) Gecko/20100101 Firefox/147.0"),
   ("Accept", "text/html,application/xhtml+xml,application/xml;q=0.9,*/*;q=0.8"),
   ("Accept-Language", "en-CA,en-US;q=0.9,en;q=0.8"),
   ("Accept-Encoding", "gzip, deflate, br, zstd"),
   ("DNT", "1"),
   ("Connection", "keep-alive"),
   ("Upgrade-Insecure-Requests", "1"),
   ("Sec-Fetch-Dest", "document"),
   ("Sec-Fetch-Mode", "navigate"),
   ("Sec-Fetch-Site", "none"),
   ("Sec-Fetch-User", "?1"),
   ("Sec-GPC", "1"),
   ("Priority", "u=0, i")]

/-- The module-level `HEADERS` dictionary of `fetch_spglobal_httpx.py`
(lines 8-21), in source order. -/
def HEADERS_httpx : List (String × String) :=
  [("User-Agent", "Mozilla/5.0 (Macintosh; Intel Mac OS X 10.15; rv:147.0) Gecko/20100101 Firefox/147.0"),
   ("Accept", "text/html,application/xhtml+xml,application/xml;q=0.9,*/*;q=0.8"),
   ("Accept-Language", "en-CA,en-US;q=0.9,en;q=0.8"),
   ("Accept-Encoding", "gzip, deflate, br, zstd"),
   ("DNT", "1"),
   ("Connection", "keep-alive"),
   ("Upgrade-Insecure-Requests", "1"),
   ("Sec-Fetch-Dest", "document"),
   ("Sec-Fetch-Mode", "navigate"),
   ("Sec-Fetch-Site", "none"),
   ("Sec-Fetch-User", "?1"),
   ("Sec-GPC", "1")]

/-- The fixed API URL of `fetch_index_data` in `fetch_spglobal.py`. -/
def API_URL_spg : String :=
  "https://www.spglobal.com/spdji/en/util/redesign/get-index-comparison-data.dot"

/-- The origin page used as `base_url` and `Referer` in `fetch_spglobal.py`. -/
def ORIGIN_spg : String := "https://www.spglobal.com/spdji/en/"

/-- `base_url` of `fetch_spglobal_httpx.py`. -/
def BASE_URL_httpx : String := "https://www.spglobal.com"

/-- The API URL assembled by the f-string in `fetch_spglobal_httpx.py`. -/
def API_URL_httpx : String :=
  BASE_URL_httpx ++ "/spdji/en/util/redesign/get-index-comparison-data.dot"

/-- The origin page URL assembled in `fetch_spglobal_httpx.py`
(warm-up target and `Referer`). -/
def ORIGIN_httpx : String := BASE_URL_httpx ++ "/spdji/en/"

/-- Merging of session-level headers with the per-request override
dict, as done by `session.get(url, headers=...)` in requests and
`client.get(url, headers=...)` in httpx: per-request entries replace
session entries of the same name. -/
def mergeHeaders (base extra : List (String × String)) :
    List (String × String) :=
  base.filter (fun p => (extra.lookup p.fst).isNone) ++ extra

/-- An outbound HTTP GET request: URL, query parameters, headers. -/
structure ApiRequest where
  url : String
  params : List (String × String)
  headers : List (String × String)
deriving DecidableEq

/-- The per-request header override of the API call in
`fetch_spglobal.py` (lines 50-53). -/
def apiExtraHeaders_spg : List (String × String) :=
  [("Sec-Fetch-Site", "same-origin"), ("Referer", ORIGIN_spg)]

/-- The per-request header override of the API call in
`fetch_spglobal_httpx.py` (lines 47-50). -/
def apiExtraHeaders_httpx : List (String × String) :=
  [("Sec-Fetch-Site", "same-origin"), ("Referer", ORIGIN_httpx)]

/-- The API GET request issued by `fetch_index_data` of
`fetch_spglobal.py` (lines 42-55): fixed URL, the three query
parameters, and the session headers overridden by the same-origin
pair. -/
def buildApiRequest_spg (index_id period language_id : String) : ApiRequest :=
  { url := API_URL_spg,
    params := [("compareArray", index_id), ("periodFlag", period),
               ("language_id", language_id)],
    headers := mergeHeaders HEADERS_spg apiExtraHeaders_spg }

/-- The API GET request issued by `fetch_index_data` of
`fetch_spglobal_httpx.py` (lines 41-52). -/
def buildApiRequest_httpx (index_id period language_id : String) : ApiRequest :=
  { url := API_URL_httpx,
    params := [("compareArray", index_id), ("periodFlag", period),
               ("language_id", language_id)],
    headers := mergeHeaders HEADERS_httpx apiExtraHeaders_httpx }

/-- Failures a strategy attempt can surface: a transport-level
exception from the HTTP client, the exception of
`response.raise_for_status()`, or a JSON decode failure from
`response.json()`. -/
inductive FetchFailure where
  | transportError
  | httpStatusError (code : Nat)
  | jsonDecodeError
deriving DecidableEq

/-- The API response a strategy observes: its status code and, when
the body is decodable JSON, the decoded value (`none` models a body
that is not valid JSON). -/
structure ApiResponse where
  statusCode : Nat
  body : Option Json

/-- `response.raise_for_status()` of requests, called on line 56 of
`fetch_spglobal.py`: raises `requests.HTTPError` exactly for 4xx and
5xx status codes (400 ≤ code < 600) and is a no-op for every other
code, informational 1xx and surfaced 3xx included. -/
def raise_for_status_requests (code : Nat) : Except FetchFailure Unit :=
  if 400 ≤ code ∧ code < 600 then .error (.httpStatusError code) else .ok ()

/-- `response.raise_for_status()` of httpx, called on line 55 of
`fetch_spglobal_httpx.py`: returns the response only when it is a
success (2xx) and raises `httpx.HTTPStatusError` for every other
status code — informational 1xx and surfaced 3xx responses raise too,
unlike in requests. -/
def raise_for_status_httpx (code : Nat) : Except FetchFailure Unit :=
  if 200 ≤ code ∧ code < 300 then .ok () else .error (.httpStatusError code)

/-- The response handling of `fetch_spglobal.py` (lines 55-58):
`response.raise_for_status()` with requests semantics, then
`return response.json()`; no field of the decoded body is inspected. -/
def handleApiResponse_spg (resp : ApiResponse) : Except FetchFailure Json :=
  match raise_for_status_requests resp.statusCode with
  | .error e => .error e
  | .ok _ =>
    match resp.body with
    | some j => .ok j
    | none => .error .jsonDecodeError

/-- The response handling of `fetch_spglobal_httpx.py` (lines 52-56):
`resp.raise_for_status()` with httpx semantics, then
`return resp.json()`; no field of the decoded body is inspected. -/
def handleApiResponse_httpx (resp : ApiResponse) : Except FetchFailure Json :=
  match raise_for_status_httpx resp.statusCode with
  | .error e => .error e
  | .ok _ =>
    match resp.body with
    | some j => .ok j
    | none => .error .jsonDecodeError

/-- A network oracle for one GET: either a transport-level failure
(connection, TLS, timeout — the request raises) or a delivered
response. For the warm-up GET only the cookie side effect matters, so
its oracle carries the `Set-Cookie` state on success. -/
abbrev WarmupOracle := Except Unit (List (String × String))

/-- Oracle for the API GET: transport failure or a delivered response. -/
abbrev ApiOracle := Except Unit ApiResponse

/-- `create_browser_session` of `fetch_spglobal.py` (lines 8-32): builds
a session with `HEADERS_spg`; when `base_url` is given it performs
`session.get(base_url)` with no exception handling, so a warm-up
transport failure propagates to the caller and no session is returned.
On success the session carries whatever cookies the warm-up set. -/
def create_browser_session (base_url : Option String)
    (warmup : WarmupOracle) : Except FetchFailure (List (String × String)) :=
  match base_url with
  | none => .ok []
  | some _ =>
    match warmup with
    | .ok cookies => .ok cookies
    | .error _ => .error .transportError

/-- Observable outcome of one end-to-end run of the requests script
(`main` composing `create_browser_session` and `fetch_index_data`):
the result, whether the API GET was reached, and whether the
`requests.Session` was closed before the run ended. -/
structure SpgRun where
  result : Except FetchFailure Json
  apiAttempted : Bool
  sessionClosed : Bool

/-- One end-to-end run of `fetch_spglobal.py` against the given
oracles. The script never calls `session.close()` and uses no `with`
block, so `sessionClosed` is false on every path; a warm-up failure
raises out of `create_browser_session` before the API GET. -/
def run_fetch_spg (warmup : WarmupOracle) (api : ApiOracle) : SpgRun :=
  match create_browser_session (some ORIGIN_spg) warmup with
  | .error e => { result := .error e, apiAttempted := false, sessionClosed := false }
  | .ok _cookies =>
    match api with
    | .error _ =>
      { result := .error .transportError, apiAttempted := true, sessionClosed := false }
    | .ok resp =>
      { result := handleApiResponse_spg resp, apiAttempted := true,
        sessionClosed := false }

/-- Observable outcome of one run of `fetch_index_data` in the httpx
script: the result, whether the API GET was reached, and whether the
`httpx.Client` was closed before returning. -/
structure HttpxRun where
  result : Except FetchFailure Json
  apiAttempted : Bool
  clientClosed : Bool

/-- One run of `fetch_index_data` of `fetch_spglobal_httpx.py` (lines
24-56) against the given oracles. The whole body sits inside
`with httpx.Client(...) as client:`, whose exit handler closes the
client on every path, normal or exceptional; the warm-up GET on line
35 has no exception handling, so a warm-up transport failure raises
before the API GET is issued. -/
def run_fetch_httpx (warmup : WarmupOracle) (api : ApiOracle) : HttpxRun :=
  match warmup with
  | .error _ =>
    { result := .error .transportError, apiAttempted := false, clientClosed := true }
  | .ok _cookies =>
    match api with
    | .error _ =>
      { result := .error .transportError, apiAttempted := true, clientClosed := true }
    | .ok resp =>
      { result := handleApiResponse_httpx resp, apiAttempted := true,
        clientClosed := true }

/-- Modelled from the spec: the three acquisition strategies of §4.3.
Only the first two have implementations under `src/`; the Browser
strategy and the tag type exist only in the spec. -/
inductive Strategy where
  | cookieSession
  | http2
  | browser
deriving DecidableEq

/-- Modelled from the spec: the fixed priority order of §4.4,
Cookie-Session → HTTP/2 → Browser. -/
def strategyPriority : List Strategy := [.cookieSession, .http2, .browser]

/-- Modelled from the spec: the aggregate error of §7 raised when every
strategy fails, carrying one failure entry per attempted strategy. -/
structure ExhaustedStrategiesError where
  failures : List (Strategy × FetchFailure)
deriving DecidableEq

/-- Modelled from the spec: the escalation loop of the Fallback
Coordinator (§4.4), absent from `src/`. Walks the remaining strategies
in order, accumulating failure entries; returns the first validated
result, or the aggregate error once the list is exhausted. -/
def coordinateFrom (attempt : Strategy → Except FetchFailure Json) :
    List Strategy → List (Strategy × FetchFailure) →
    Except ExhaustedStrategiesError Json
  | [], acc => .error ⟨acc⟩
  | s :: rest, acc =>
    match attempt s with
    | .ok j => .ok j
    | .error e => coordinateFrom attempt rest (acc ++ [(s, e)])

/-- Modelled from the spec: `fetch` of the Fallback Coordinator (§4.4),
absent from `src/` — attempts the strategies in the fixed priority
order, stopping at the first whose response passes validation. -/
def coordinate (attempt : Strategy → Except FetchFailure Json) :
    Except ExhaustedStrategiesError Json :=
  coordinateFrom attempt strategyPriority []

/-- Dropping one header from a header list by name. -/
def removeHeader (hs : List (String × String)) (k : String) :
    List (String × String) :=
  hs.filter (fun p => p.fst != k)

/-- The header names §4.1 requires of the header profile. -/
def requiredHeaderNames : List String :=
  ["User-Agent", "Accept", "Accept-Language", "Accept-Encoding",
   "Sec-Fetch-Dest", "Sec-Fetch-Mode", "Sec-Fetch-Site", "Sec-Fetch-User"]

/-- A header list binds the given name to a non-empty value. -/
def hasNonEmptyHeader (hs : List (String × String)) (k : String) : Bool :=
  match hs.lookup k with
  | some v => v != ""
  | none => false

/-- Reduction of `mainExtract` on a body of the documented API shape:
the result is governed by the truthiness of `status` and, when truthy,
by the head of the performance array. -/
theorem mainExtract_comparison (status : Json) (ms ps : List Json) :
    mainExtract (comparisonResponse status ms ps)
      = if status.truthy then
          (match ps with
           | [] => .error .indexError
           | perf :: _ =>
             match extractFields perf with
             | .error e => .error e
             | .ok rec => .ok (some rec))
        else .ok none := by
  have hs : (comparisonResponse status ms ps).getOpt "status"
      = .ok (some status) := rfl
  unfold mainExtract
  rw [hs]
  cases hst : status.truthy <;>
    cases ps <;>
      simp [hst, comparisonResponse, Json.getItem, Json.getIdx, lookupField,
        List.lookup]

/-- Claim C1: on a raw response body of the documented shape whose
top-level `status` is truthy and whose performance array is non-empty,
extraction returns a record whose indexName, indexValue,
dailyReturnPct, ytdReturnPct and oneYearReturnPct are exactly the first
array element's indexName, indexValue, dailyReturn, yearToDateReturn
and oneYearReturn values. -/
theorem parse_field_mapping_round_trip (status name value daily ytd oneY : Json)
    (messages rest : List Json) (h : status.truthy = true) :
    mainExtract (comparisonResponse status messages
        (perfObj name value daily ytd oneY :: rest))
      = .ok (some ⟨name, value, daily, ytd, oneY⟩) := by
  rw [mainExtract_comparison, h]
  rfl

/-- Claim C1 witness: the round trip at the documented sample record. -/
theorem parse_field_mapping_round_trip_witness :
    mainExtract (comparisonResponse (.bool true) []
        [perfObj (.str "TSX Composite") (.num 24500) (.num 35) (.num 124)
          (.num 189)])
      = .ok (some ⟨.str "TSX Composite", .num 24500, .num 35, .num 124,
          .num 189⟩) :=
  parse_field_mapping_round_trip (.bool true) (.str "TSX Composite") (.num 24500)
    (.num 35) (.num 124) (.num 189) [] [] rfl

/-- Claim C2 counterexample: on the concrete response with `status`
equal to `false`, the extraction returns without a record and without
raising any error at all — refuting the claim that a falsy status makes
the operation fail with a FetchError. -/
theorem falsy_status_completes_without_error :
    mainExtract (comparisonResponse (.bool false) [] []) = .ok none := rfl

/-- Claim C2 amended: a record is extracted only from a body whose
`status` is truthy and whose performance array is non-empty; but on a
falsy status the code returns no record and raises no error (it
completes silently), and on a truthy status with an empty performance
array it raises an IndexError, not an InvalidResponseError. -/
theorem status_gate_and_empty_array_behavior (status : Json)
    (messages perfItems : List Json) :
    (status.truthy = false →
      mainExtract (comparisonResponse status messages perfItems) = .ok none) ∧
    (status.truthy = true → perfItems = [] →
      mainExtract (comparisonResponse status messages perfItems)
        = .error .indexError) ∧
    (∀ rec, mainExtract (comparisonResponse status messages perfItems)
        = .ok (some rec) → status.truthy = true ∧ perfItems ≠ []) := by
  refine ⟨?_, ?_, ?_⟩
  · intro h
    rw [mainExtract_comparison, h]
    rfl
  · intro h he
    subst he
    rw [mainExtract_comparison, h]
    rfl
  · intro rec h
    rw [mainExtract_comparison] at h
    cases hst : status.truthy
    · rw [hst] at h
      simp at h
    · refine ⟨rfl, ?_⟩
      intro he
      subst he
      rw [hst] at h
      simp at h

/-- Claim C2 amended witness: the gate at a null status. -/
theorem status_gate_and_empty_array_behavior_witness :
    mainExtract (comparisonResponse .null [] []) = .ok none :=
  (status_gate_and_empty_array_behavior .null [] []).1 rfl

/-- Claim C3 (coordinator modelled from the spec, §4.4): strategies are
attempted in the fixed priority order Cookie-Session, HTTP/2, Browser;
the first validated result is returned and later strategies are
irrelevant to it; when all three fail, the coordinator raises an
ExhaustedStrategiesError with exactly three failure entries, one per
strategy, in priority order. -/
theorem coordinator_priority_order_and_exhaustion
    (attempt : Strategy → Except FetchFailure Json) :
    (∀ j, attempt .cookieSession = .ok j → coordinate attempt = .ok j) ∧
    (∀ e1 j, attempt .cookieSession = .error e1 → attempt .http2 = .ok j →
      coordinate attempt = .ok j) ∧
    (∀ e1 e2 j, attempt .cookieSession = .error e1 → attempt .http2 = .error e2 →
      attempt .browser = .ok j → coordinate attempt = .ok j) ∧
    (∀ e1 e2 e3, attempt .cookieSession = .error e1 → attempt .http2 = .error e2 →
      attempt .browser = .error e3 →
      coordinate attempt
        = .error ⟨[(.cookieSession, e1), (.http2, e2), (.browser, e3)]⟩) := by
  refine ⟨?_, ?_, ?_, ?_⟩ <;>
    · intros
      simp_all [coordinate, coordinateFrom, strategyPriority]

/-- Claim C3 witness: with every strategy failing on transport, the
aggregate error lists the three strategies in priority order. -/
theorem coordinator_priority_order_and_exhaustion_witness :
    coordinate (fun _ => .error .transportError)
      = .error ⟨[(.cookieSession, .transportError), (.http2, .transportError),
                 (.browser, .transportError)]⟩ :=
  (coordinator_priority_order_and_exhaustion
      (fun _ => .error .transportError)).2.2.2
    .transportError .transportError .transportError rfl rfl rfl

/-- Claim C4 counterexample: in the Cookie-Session (requests) strategy
the concrete non-2xx response with status code 300 and a JSON body
raises nothing and hands the decoded body back to the caller —
refuting the claim that each strategy raises an HTTP status error on
every non-2xx status; requests only raises for 4xx and 5xx. -/
theorem non_2xx_not_always_raised :
    handleApiResponse_spg ⟨300, some (.bool true)⟩ = .ok (.bool true) := rfl

/-- Claim C4 amended: the HTTP/2 (httpx) strategy raises an HTTP status
error for every non-2xx status code, returning no body there, and
never raises one on a 2xx; the Cookie-Session (requests) strategy
raises exactly for 4xx and 5xx, so a surfaced non-2xx code outside
400-599 (such as 300) raises nothing there and a JSON body is returned
to the caller. -/
theorem http_error_ranges_by_strategy (resp : ApiResponse) :
    (¬(200 ≤ resp.statusCode ∧ resp.statusCode < 300) →
      handleApiResponse_httpx resp = .error (.httpStatusError resp.statusCode)) ∧
    (200 ≤ resp.statusCode ∧ resp.statusCode < 300 →
      ∀ c, handleApiResponse_httpx resp ≠ .error (.httpStatusError c)) ∧
    (400 ≤ resp.statusCode ∧ resp.statusCode < 600 →
      handleApiResponse_spg resp = .error (.httpStatusError resp.statusCode)) ∧
    (¬(400 ≤ resp.statusCode ∧ resp.statusCode < 600) →
      ∀ c, handleApiResponse_spg resp ≠ .error (.httpStatusError c)) := by
  refine ⟨?_, ?_, ?_, ?_⟩
  · intro h
    unfold handleApiResponse_httpx raise_for_status_httpx
    rw [if_neg h]
  · intro h c hEq
    unfold handleApiResponse_httpx raise_for_status_httpx at hEq
    rw [if_pos h] at hEq
    cases hb : resp.body <;> rw [hb] at hEq <;> simp at hEq
  · intro h
    unfold handleApiResponse_spg raise_for_status_requests
    rw [if_pos h]
  · intro h c hEq
    unfold handleApiResponse_spg raise_for_status_requests at hEq
    rw [if_neg h] at hEq
    cases hb : resp.body <;> rw [hb] at hEq <;> simp at hEq

/-- Claim C4 amended witness: a surfaced 300 raises the HTTP status
error in the httpx strategy. -/
theorem http_error_ranges_by_strategy_witness :
    handleApiResponse_httpx ⟨300, none⟩ = .error (.httpStatusError 300) :=
  (http_error_ranges_by_strategy ⟨300, none⟩).1 (by decide)

/-- Claim C5 counterexample: with the warm-up GET failing and the API
ready to answer 200 with a JSON body, both scripts abort with the
transport error and never attempt the API request — refuting the claim
that a warm-up failure is absorbed; neither script wraps its warm-up
GET in any exception handling. -/
theorem warmup_failure_aborts_fetch :
    (run_fetch_spg (.error ()) (.ok ⟨200, some .null⟩)).result
      = .error .transportError ∧
    (run_fetch_spg (.error ()) (.ok ⟨200, some .null⟩)).apiAttempted = false ∧
    (run_fetch_httpx (.error ()) (.ok ⟨200, some .null⟩)).result
      = .error .transportError ∧
    (run_fetch_httpx (.error ()) (.ok ⟨200, some .null⟩)).apiAttempted = false :=
  ⟨rfl, rfl, rfl, rfl⟩

/-- Claim C5 amended: in both scripts a warm-up failure propagates: the
overall fetch fails with the transport error and the API request is
never attempted, whatever the API would have answered. -/
theorem warmup_failure_propagates (api : ApiOracle) :
    (run_fetch_spg (.error ()) api).result = .error .transportError ∧
    (run_fetch_spg (.error ()) api).apiAttempted = false ∧
    (run_fetch_httpx (.error ()) api).result = .error .transportError ∧
    (run_fetch_httpx (.error ()) api).apiAttempted = false :=
  ⟨rfl, rfl, rfl, rfl⟩

/-- Claim C6: for every index id, period token and language id, both
strategies issue a GET to the one fixed API path whose query parameters
are exactly `compareArray` = the index id, `periodFlag` = the period
token passed through verbatim, and `language_id` = the language id,
with effective request headers carrying `Sec-Fetch-Site: same-origin`
and `Referer` set to the origin page. -/
theorem api_request_shape (index_id period language_id : String) :
    (buildApiRequest_spg index_id period language_id).url = API_URL_spg ∧
    (buildApiRequest_httpx index_id period language_id).url = API_URL_spg ∧
    (buildApiRequest_spg index_id period language_id).params
      = [("compareArray", index_id), ("periodFlag", period),
         ("language_id", language_id)] ∧
    (buildApiRequest_httpx index_id period language_id).params
      = [("compareArray", index_id), ("periodFlag", period),
         ("language_id", language_id)] ∧
    (buildApiRequest_spg index_id period language_id).headers.lookup
        "Sec-Fetch-Site" = some "same-origin" ∧
    (buildApiRequest_spg index_id period language_id).headers.lookup "Referer"
      = some ORIGIN_spg ∧
    (buildApiRequest_httpx index_id period language_id).headers.lookup
        "Sec-Fetch-Site" = some "same-origin" ∧
    (buildApiRequest_httpx index_id period language_id).headers.lookup "Referer"
      = some ORIGIN_spg :=
  ⟨rfl, rfl, rfl, rfl, rfl, rfl, rfl, rfl⟩

/-- Claim C7 counterexample: the two header profiles are not identical:
the requests script sends `Priority: u=0, i` and the httpx script has
no `Priority` header at all — refuting the claim that the strategies
differ only in transport negotiation. -/
theorem header_profiles_not_identical :
    HEADERS_spg.lookup "Priority" = some "u=0, i" ∧
    HEADERS_httpx.lookup "Priority" = none ∧
    HEADERS_spg ≠ HEADERS_httpx := by
  refine ⟨rfl, rfl, ?_⟩
  decide

/-- Claim C7 amended: the two strategies differ in transport
negotiation, in the header profile (the requests script additionally
sends `Priority: u=0, i`) and in non-2xx handling outside 4xx/5xx (a
surfaced 300 with a JSON body is returned by the requests script but
raises in the httpx script). Everything else coincides: removing
`Priority` makes the profiles identical, the API requests agree (same
URL, same parameters, same headers modulo `Priority`), the API is
attempted under exactly the same conditions, and the results are equal
on every transport failure and on every API status code in 2xx or
400-599. -/
theorem strategies_agree_modulo_priority_and_error_ranges
    (index_id period language_id : String)
    (warmup : WarmupOracle) (api : ApiOracle) :
    removeHeader HEADERS_spg "Priority" = HEADERS_httpx ∧
    (buildApiRequest_spg index_id period language_id).url
      = (buildApiRequest_httpx index_id period language_id).url ∧
    (buildApiRequest_spg index_id period language_id).params
      = (buildApiRequest_httpx index_id period language_id).params ∧
    removeHeader (buildApiRequest_spg index_id period language_id).headers
        "Priority"
      = (buildApiRequest_httpx index_id period language_id).headers ∧
    (run_fetch_spg warmup api).apiAttempted
      = (run_fetch_httpx warmup api).apiAttempted ∧
    (∀ resp, api = .ok resp →
      ((200 ≤ resp.statusCode ∧ resp.statusCode < 300) ∨
       (400 ≤ resp.statusCode ∧ resp.statusCode < 600)) →
      (run_fetch_spg warmup api).result = (run_fetch_httpx warmup api).result) ∧
    (api = .error () →
      (run_fetch_spg warmup api).result = (run_fetch_httpx warmup api).result) ∧
    (run_fetch_spg (.ok []) (.ok ⟨300, some .null⟩)).result = .ok .null ∧
    (run_fetch_httpx (.ok []) (.ok ⟨300, some .null⟩)).result
      = .error (.httpStatusError 300) := by
  refine ⟨rfl, rfl, rfl, rfl, ?_, ?_, ?_, rfl, rfl⟩
  · cases warmup <;> cases api <;> rfl
  · intro resp hapi hrange
    subst hapi
    cases warmup with
    | error u => rfl
    | ok cs =>
      show handleApiResponse_spg resp = handleApiResponse_httpx resp
      unfold handleApiResponse_spg handleApiResponse_httpx
        raise_for_status_requests raise_for_status_httpx
      rcases hrange with h | h
      · rw [if_neg (by omega), if_pos (by omega)]
      · rw [if_pos (by omega), if_neg (by omega)]
  · intro hapi
    subst hapi
    cases warmup <;> rfl

/-- Claim C7 amended witness: on a successful warm-up and a 200 JSON
response the two strategies produce the same result. -/
theorem strategies_agree_modulo_priority_and_error_ranges_witness :
    (run_fetch_spg (.ok []) (.ok ⟨200, some .null⟩)).result
      = (run_fetch_httpx (.ok []) (.ok ⟨200, some .null⟩)).result :=
  (strategies_agree_modulo_priority_and_error_ranges "5457755" "tenYearFlag" "1"
      (.ok []) (.ok ⟨200, some .null⟩)).2.2.2.2.2.1
    ⟨200, some .null⟩ rfl (Or.inl (by decide))

/-- Claim C8: both header profiles are pure data binding non-empty
values to `User-Agent`, `Accept`, `Accept-Language`, `Accept-Encoding`
and the four fetch-metadata headers `Sec-Fetch-Dest`, `Sec-Fetch-Mode`,
`Sec-Fetch-Site`, `Sec-Fetch-User`. -/
theorem header_profile_complete :
    (requiredHeaderNames.all (fun k => hasNonEmptyHeader HEADERS_spg k)) = true ∧
    (requiredHeaderNames.all (fun k => hasNonEmptyHeader HEADERS_httpx k)) = true :=
  ⟨rfl, rfl⟩

/-- Claim C9 counterexample: on a fully successful run (warm-up ok, API
200 with JSON body) the requests script returns its result with the
session still open — it never calls `session.close()` and uses no
`with` block — refuting the claim that every strategy attempt releases
its network resource before returning. -/
theorem spg_session_never_closed_on_success :
    (run_fetch_spg (.ok []) (.ok ⟨200, some .null⟩)).result = .ok .null ∧
    (run_fetch_spg (.ok []) (.ok ⟨200, some .null⟩)).sessionClosed = false :=
  ⟨rfl, rfl⟩

/-- Claim C9 amended: the httpx strategy closes its client on every
exit path (its whole body runs inside a `with` block), but the requests
strategy closes its session on no path at all, leaving release to
interpreter shutdown. -/
theorem resource_release_per_strategy (warmup : WarmupOracle) (api : ApiOracle) :
    (run_fetch_httpx warmup api).clientClosed = true ∧
    (run_fetch_spg warmup api).sessionClosed = false := by
  cases warmup <;> cases api <;> exact ⟨rfl, rfl⟩

/-- Claim C10: for every API response with a 2xx status code and a
JSON-decodable body, `fetch_index_data` returns the decoded body
unchanged, inspecting neither `status` nor `serviceMessages` nor the
performance array; in particular a falsy-status rejection body comes
back as a normal successful result. -/
theorem fetch_returns_decoded_body_unvalidated (resp : ApiResponse) (j : Json)
    (h2 : 200 ≤ resp.statusCode) (h3 : resp.statusCode < 300)
    (hb : resp.body = some j) :
    handleApiResponse_spg resp = .ok j ∧ handleApiResponse_httpx resp = .ok j := by
  constructor
  · unfold handleApiResponse_spg raise_for_status_requests
    rw [if_neg (by omega), hb]
  · unfold handleApiResponse_httpx raise_for_status_httpx
    rw [if_pos (by omega), hb]

/-- Claim C10 witness: a 200 response whose body is a falsy-status
rejection is returned as a success by both strategies, not raised. -/
theorem fetch_returns_decoded_body_unvalidated_witness :
    handleApiResponse_spg ⟨200, some (comparisonResponse (.bool false) [] [])⟩
      = .ok (comparisonResponse (.bool false) [] []) ∧
    handleApiResponse_httpx ⟨200, some (comparisonResponse (.bool false) [] [])⟩
      = .ok (comparisonResponse (.bool false) [] []) :=
  fetch_returns_decoded_body_unvalidated
    ⟨200, some (comparisonResponse (.bool false) [] [])⟩
    (comparisonResponse (.bool false) [] []) (by decide) (by decide) rfl

end FetchProblem
